import Mathlib

/-!
Verification of the room/session lifecycle core of the broadcasting backend
(src/backend/main.py).

The backend keeps two in-memory tables:
  rooms_db       : dict room_id -> Room
  active_streams : dict stream_key -> started_at timestamp

We embed each Python dict as an insertion-ordered association list with the
usual dict operations: lookup returns the first entry with the key, insertion
replaces an existing entry in place or appends a fresh one at the end, and
deletion removes the entry with the key (Python dicts never hold duplicate
keys, so well-formed states have pairwise distinct keys; theorems that need
this carry it as a Nodup hypothesis).

Timestamps (datetime.utcnow()) are modelled as an abstract Nat supplied by the
caller; the random generators (uuid4, secrets.token_urlsafe) are modelled by
passing the generated room_id / stream_key as explicit arguments; QR rendering
is an external black box modelled as an arbitrary function qr : String -> String
applied to the viewer URL, exactly where the code calls generate_qr_code.
-/

namespace Broadcasting

/-- The Room pydantic model of main.py: room_id, stream_key, title, created_at,
is_active (default false), viewer_count (default 0). -/
structure Room where
  room_id : String
  stream_key : String
  title : String
  created_at : Nat
  is_active : Bool
  viewer_count : Nat
  deriving DecidableEq, Repr

/-- The RoomResponse pydantic model returned by create_room and get_room. -/
structure RoomResponse where
  room_id : String
  stream_key : String
  title : String
  rtmp_url : String
  viewer_url : String
  qr_code : String
  created_at : Nat
  is_active : Bool
  viewer_count : Nat
  deriving DecidableEq, Repr

/-- An HTTPException raised by a handler. -/
structure HTTPError where
  status_code : Nat
  detail : String
  deriving DecidableEq, Repr

/-- The module-level mutable state: rooms_db and active_streams. -/
structure ServerState where
  rooms_db : List (String × Room)
  active_streams : List (String × Nat)
  deriving DecidableEq, Repr

/-- Python dict lookup d[k] / d.get(k): first entry with key k. -/
def dictGet {α : Type} (d : List (String × α)) (k : String) : Option α :=
  match d with
  | [] => none
  | (k2, v) :: rest => if k2 = k then some v else dictGet rest k

/-- Python dict assignment d[k] = v: replace in place if k present, else
append at the end (insertion order preserved). -/
def dictInsert {α : Type} (d : List (String × α)) (k : String) (v : α) :
    List (String × α) :=
  match d with
  | [] => [(k, v)]
  | (k2, v2) :: rest =>
    if k2 = k then (k, v) :: rest else (k2, v2) :: dictInsert rest k v

/-- Python del d[k]: drop the entry with key k. -/
def dictErase {α : Type} (d : List (String × α)) (k : String) :
    List (String × α) :=
  match d with
  | [] => []
  | (k2, v2) :: rest =>
    if k2 = k then rest else (k2, v2) :: dictErase rest k

/-- URL pieces hard-coded in main.py. -/
def server_host : String := "tilsync.nu.edu.kz"

def rtmp_port : Nat := 443

def rtmp_url_for (stream_key : String) : String :=
  "rtmp://" ++ server_host ++ ":" ++ toString rtmp_port ++ "/live/" ++ stream_key

def viewer_url_for (room_id : String) : String :=
  "https://tilsync.nu.edu.kz/broadcast/client/room/" ++ room_id

/-- Build the RoomResponse the way both create_room and get_room do: the echoed
fields come from the stored room, the viewer URL from the room_id used in the
URL, and qr_code from the external QR encoder applied to the viewer URL. -/
def roomResponse (qr : String → String) (room : Room) (url_room_id : String) :
    RoomResponse :=
  { room_id := room.room_id
    stream_key := room.stream_key
    title := room.title
    rtmp_url := rtmp_url_for room.stream_key
    viewer_url := viewer_url_for url_room_id
    qr_code := qr (viewer_url_for url_room_id)
    created_at := room.created_at
    is_active := room.is_active
    viewer_count := room.viewer_count }

/-- POST /api/rooms (create_room): build the Room with is_active = false and
viewer_count = 0, store it with rooms_db[room_id] = room (unconditionally),
and return the response. room_id and stream_key are the freshly generated
random values, now is datetime.utcnow(). -/
def create_room (qr : String → String) (s : ServerState)
    (room_id stream_key title : String) (now : Nat) :
    ServerState × RoomResponse :=
  let room : Room :=
    { room_id := room_id, stream_key := stream_key, title := title,
      created_at := now, is_active := false, viewer_count := 0 }
  ({ s with rooms_db := dictInsert s.rooms_db room_id room },
   roomResponse qr room room_id)

/-- GET /api/rooms/\x7broom_id\x7d (get_room): 404 if absent, else the response. -/
def get_room (qr : String → String) (s : ServerState) (room_id : String) :
    Except HTTPError RoomResponse :=
  match dictGet s.rooms_db room_id with
  | none => Except.error { status_code := 404, detail := "Room not found" }
  | some room => Except.ok (roomResponse qr room room_id)

/-- DELETE /api/rooms/\x7broom_id\x7d (delete_room): 404 if absent, else remove
the room and return the success message. -/
def delete_room (s : ServerState) (room_id : String) :
    Except HTTPError (ServerState × String) :=
  if (dictGet s.rooms_db room_id).isNone then
    Except.error { status_code := 404, detail := "Room not found" }
  else
    Except.ok ({ s with rooms_db := dictErase s.rooms_db room_id },
               "Room deleted successfully")

/-- The linear scan both webhooks perform over rooms_db.values(): the first
room whose stream_key equals the form value. The form value is
form_data.get("name") and may be missing (none); the stream_key of a Room is a
plain string, so a missing form value never matches. -/
def find_room_by_key (rooms : List (String × Room)) (key : Option String) :
    Option Room :=
  match rooms with
  | [] => none
  | (_, r) :: rest =>
    if some r.stream_key = key then some r else find_room_by_key rest key

/-- room.is_active = b on the room object the scan found: flip the first
entry whose stream_key matches, leave everything else untouched. -/
def set_active_first (rooms : List (String × Room)) (key : Option String)
    (b : Bool) : List (String × Room) :=
  match rooms with
  | [] => []
  | (rid, r) :: rest =>
    if some r.stream_key = key then (rid, { r with is_active := b }) :: rest
    else (rid, r) :: set_active_first rest key b

/-- POST /webhooks/stream_start (stream_start_webhook): if the scan finds a
room, set its is_active to true and record active_streams[stream_key] = now;
otherwise do nothing. Always answers \x7b"status": "ok"\x7d, never an error.
When a room is matched the form key equals room.stream_key (that is exactly
the equality test of the scan), so the session entry is keyed by room.stream_key. -/
def stream_start_webhook (s : ServerState) (key : Option String) (now : Nat) :
    ServerState × Except HTTPError String :=
  match find_room_by_key s.rooms_db key with
  | some room =>
    ({ rooms_db := set_active_first s.rooms_db key true,
       active_streams := dictInsert s.active_streams room.stream_key now },
     Except.ok "ok")
  | none => (s, Except.ok "ok")

/-- POST /webhooks/stream_end (stream_end_webhook): if the scan finds a room,
set its is_active to false and delete the active_streams entry for the key if
present (dictErase is the identity when the key is absent); otherwise do
nothing. Always answers \x7b"status": "ok"\x7d. -/
def stream_end_webhook (s : ServerState) (key : Option String) :
    ServerState × Except HTTPError String :=
  match find_room_by_key s.rooms_db key with
  | some room =>
    ({ rooms_db := set_active_first s.rooms_db key false,
       active_streams := dictErase s.active_streams room.stream_key },
     Except.ok "ok")
  | none => (s, Except.ok "ok")

/-- The GET /api/stream/\x7bstream_key\x7d/status response body. -/
structure StreamStatus where
  stream_key : String
  is_active : Bool
  started_at : Option Nat
  deriving DecidableEq, Repr

/-- GET /api/stream/\x7bstream_key\x7d/status (get_stream_status): is_active is
membership of the key in active_streams; started_at is its stored timestamp
when active, null otherwise. -/
def get_stream_status (s : ServerState) (stream_key : String) : StreamStatus :=
  let is_active := (dictGet s.active_streams stream_key).isSome
  { stream_key := stream_key
    is_active := is_active
    started_at := if is_active then dictGet s.active_streams stream_key else none }

/-- The frame property the webhooks satisfy on the room table: the keys (and
hence insertion order and length) are unchanged, and each position either
holds exactly the old entry, or is the first entry whose stream_key matches
the form value and differs from the old entry only in is_active. At most one
position can be in the second case. -/
def AtMostFirstFlip (old new : List (String × Room)) (key : Option String)
    (b : Bool) : Prop :=
  new.map Prod.fst = old.map Prod.fst ∧
  ∀ i : Nat,
    new.get? i = old.get? i ∨
    (∃ p : String × Room, old.get? i = some p ∧
      some p.2.stream_key = key ∧
      new.get? i = some (p.1, { p.2 with is_active := b }) ∧
      ∀ j < i, ∀ q : String × Room, old.get? j = some q →
        some q.2.stream_key ≠ key)

/-! ### Concrete sample data used by witnesses and counterexamples -/

/-- A trivial stand-in for the external QR encoder. -/
def qr0 : String → String := fun _ => ""

/-- A sample room owning stream key "k". -/
def room0 : Room :=
  { room_id := "r", stream_key := "k", title := "Morning Show",
    created_at := 0, is_active := false, viewer_count := 0 }

/-- The empty server state. -/
def st_empty : ServerState := { rooms_db := [], active_streams := [] }

/-- A state holding just room0, with no live session. -/
def st0 : ServerState := { rooms_db := [("r", room0)], active_streams := [] }

/-- A state with a live session for key "k" but no room owning it. -/
def orphanState : ServerState :=
  { rooms_db := [], active_streams := [("k", 5)] }

/-- A second sample room for collision scenarios. -/
def roomA : Room :=
  { room_id := "r1", stream_key := "k", title := "A", created_at := 0,
    is_active := false, viewer_count := 0 }

/-- A state holding just roomA. -/
def stA : ServerState := { rooms_db := [("r1", roomA)], active_streams := [] }

/-- A state holding room0 together with a live session for its key "k". -/
def stLive : ServerState :=
  { rooms_db := [("r", room0)], active_streams := [("k", 5)] }

/-! ### Dictionary lemmas -/

theorem dictGet_insert_self {α : Type} (d : List (String × α)) (k : String)
    (v : α) : dictGet (dictInsert d k v) k = some v := by
  induction d with
  | nil => simp [dictInsert, dictGet]
  | cons hd tl ih =>
    obtain ⟨k2, v2⟩ := hd
    by_cases h : k2 = k
    · simp [dictInsert, dictGet, h]
    · simp [dictInsert, dictGet, h, ih]

theorem dictGet_insert_ne {α : Type} (d : List (String × α)) (k k2 : String)
    (v : α) (h : k2 ≠ k) : dictGet (dictInsert d k v) k2 = dictGet d k2 := by
  have h2 : ¬(k = k2) := Ne.symm h
  induction d with
  | nil => simp [dictInsert, dictGet, h2]
  | cons hd tl ih =>
    obtain ⟨k3, v3⟩ := hd
    by_cases h3 : k3 = k
    · subst h3
      simp [dictInsert, dictGet, h2, h]
    · by_cases h4 : k3 = k2
      · subst h4
        simp [dictInsert, dictGet, h3]
      · simp [dictInsert, dictGet, h3, h4, ih]

theorem dictGet_eq_none_of_not_mem {α : Type} {d : List (String × α)}
    {k : String} (h : k ∉ d.map Prod.fst) : dictGet d k = none := by
  induction d with
  | nil => rfl
  | cons hd tl ih =>
    obtain ⟨k2, v2⟩ := hd
    simp only [List.map_cons, List.mem_cons] at h
    push_neg at h
    simp [dictGet, Ne.symm h.1, ih h.2]

theorem mem_of_dictGet {α : Type} {d : List (String × α)} {k : String} {v : α}
    (h : dictGet d k = some v) : (k, v) ∈ d := by
  induction d with
  | nil => simp [dictGet] at h
  | cons hd tl ih =>
    obtain ⟨k2, v2⟩ := hd
    by_cases h2 : k2 = k
    · subst h2
      simp [dictGet] at h
      simp [h]
    · simp [dictGet, h2] at h
      exact List.mem_cons_of_mem _ (ih h)

theorem mem_keys_of_dictInsert {α : Type} {d : List (String × α)}
    {k a : String} {v : α} (h : a ∈ (dictInsert d k v).map Prod.fst) :
    a ∈ d.map Prod.fst ∨ a = k := by
  induction d with
  | nil => simpa [dictInsert] using h
  | cons hd tl ih =>
    obtain ⟨k2, v2⟩ := hd
    by_cases h2 : k2 = k
    · subst h2
      have he : dictInsert ((k2, v2) :: tl) k2 v = (k2, v) :: tl := by
        simp [dictInsert]
      rw [he] at h
      simp only [List.map_cons, List.mem_cons] at h ⊢
      rcases h with h | h
      · exact Or.inl (Or.inl h)
      · exact Or.inl (Or.inr h)
    · simp only [dictInsert, if_neg h2, List.map_cons, List.mem_cons] at h ⊢
      rcases h with h | h
      · exact Or.inl (Or.inl h)
      · rcases ih h with h3 | h3
        · exact Or.inl (Or.inr h3)
        · exact Or.inr h3

theorem nodup_keys_dictInsert {α : Type} {d : List (String × α)} (k : String)
    (v : α) (h : (d.map Prod.fst).Nodup) :
    ((dictInsert d k v).map Prod.fst).Nodup := by
  induction d with
  | nil => simp [dictInsert]
  | cons hd tl ih =>
    obtain ⟨k2, v2⟩ := hd
    simp only [List.map_cons, List.nodup_cons] at h
    by_cases h2 : k2 = k
    · subst h2
      have he : dictInsert ((k2, v2) :: tl) k2 v = (k2, v) :: tl := by
        simp [dictInsert]
      rw [he]
      simp only [List.map_cons, List.nodup_cons]
      exact h
    · simp only [dictInsert, if_neg h2, List.map_cons, List.nodup_cons]
      refine ⟨fun hmem => ?_, ih h.2⟩
      rcases mem_keys_of_dictInsert hmem with h3 | h3
      · exact h.1 h3
      · exact h2 h3

theorem dictGet_erase_self {α : Type} {d : List (String × α)} {k : String}
    (h : (d.map Prod.fst).Nodup) : dictGet (dictErase d k) k = none := by
  induction d with
  | nil => rfl
  | cons hd tl ih =>
    obtain ⟨k2, v2⟩ := hd
    simp only [List.map_cons, List.nodup_cons] at h
    by_cases h2 : k2 = k
    · subst h2
      simp only [dictErase, if_pos rfl]
      exact dictGet_eq_none_of_not_mem h.1
    · simp [dictErase, dictGet, h2, ih h.2]

theorem dictGet_erase_ne {α : Type} {d : List (String × α)} {k k2 : String}
    (h : k2 ≠ k) : dictGet (dictErase d k) k2 = dictGet d k2 := by
  have h2 : ¬(k = k2) := Ne.symm h
  induction d with
  | nil => rfl
  | cons hd tl ih =>
    obtain ⟨k3, v3⟩ := hd
    by_cases h3 : k3 = k
    · subst h3
      simp [dictErase, dictGet, h2, h]
    · by_cases h4 : k3 = k2
      · subst h4
        simp [dictErase, dictGet, h3]
      · simp [dictErase, dictGet, h3, h4, ih]

/-! ### Lemmas about the webhook room scan -/

theorem find_room_key_eq {rooms : List (String × Room)} {k : String} {r : Room}
    (h : find_room_by_key rooms (some k) = some r) : r.stream_key = k := by
  induction rooms with
  | nil => simp [find_room_by_key] at h
  | cons hd tl ih =>
    obtain ⟨rid, r0⟩ := hd
    by_cases h0 : r0.stream_key = k
    · simp [find_room_by_key, h0] at h
      rw [← h]
      exact h0
    · simp only [find_room_by_key] at h
      rw [if_neg (by simpa using h0)] at h
      exact ih h

theorem set_active_map_fst (rooms : List (String × Room)) (key : Option String)
    (b : Bool) :
    (set_active_first rooms key b).map Prod.fst = rooms.map Prod.fst := by
  induction rooms with
  | nil => rfl
  | cons hd tl ih =>
    obtain ⟨rid, r⟩ := hd
    by_cases h : some r.stream_key = key
    · simp [set_active_first, h]
    · simp [set_active_first, h, ih]

theorem mem_set_active {rooms : List (String × Room)} {key : Option String}
    {b : Bool} {p : String × Room} (hp : p ∈ set_active_first rooms key b) :
    ∃ r : Room, (p.1, r) ∈ rooms ∧ r.stream_key = p.2.stream_key := by
  induction rooms with
  | nil => simp [set_active_first] at hp
  | cons hd tl ih =>
    obtain ⟨rid, r⟩ := hd
    by_cases h : some r.stream_key = key
    · simp only [set_active_first, if_pos h, List.mem_cons] at hp
      rcases hp with hp | hp
      · exact ⟨r, by simp [hp], by simp [hp]⟩
      · exact ⟨p.2, List.mem_cons_of_mem _ (by simpa using hp), rfl⟩
    · simp only [set_active_first, if_neg h, List.mem_cons] at hp
      rcases hp with hp | hp
      · exact ⟨r, by simp [hp], by simp [hp]⟩
      · obtain ⟨r2, hmem, hk⟩ := ih hp
        exact ⟨r2, List.mem_cons_of_mem _ hmem, hk⟩

theorem set_active_lookup {rooms : List (String × Room)} {rid k : String}
    {room : Room} (b : Bool)
    (hnd : (rooms.map Prod.fst).Nodup)
    (hmem : (rid, room) ∈ rooms)
    (hkey : room.stream_key = k)
    (huniq : ∀ p ∈ rooms, p.2.stream_key = k → p.1 = rid) :
    dictGet (set_active_first rooms (some k) b) rid =
      some { room with is_active := b } ∧
    ∀ rid2, rid2 ≠ rid →
      dictGet (set_active_first rooms (some k) b) rid2 = dictGet rooms rid2 := by
  induction rooms with
  | nil => cases hmem
  | cons hd tl ih =>
    obtain ⟨k0, r0⟩ := hd
    simp only [List.map_cons, List.nodup_cons] at hnd
    by_cases h0 : r0.stream_key = k
    · have hk0 : k0 = rid := huniq (k0, r0) (List.mem_cons_self _ _) h0
      subst hk0
      have hroom : room = r0 := by
        rcases List.mem_cons.mp hmem with h | h
        · exact congrArg Prod.snd h
        · exact absurd (List.mem_map_of_mem Prod.fst h) hnd.1
      subst hroom
      constructor
      · simp [set_active_first, dictGet, h0]
      · intro rid2 hne
        have hne2 : ¬(k0 = rid2) := Ne.symm hne
        simp [set_active_first, dictGet, h0, hne2]
    · have hmem2 : (rid, room) ∈ tl := by
        rcases List.mem_cons.mp hmem with h | h
        · exfalso
          apply h0
          rw [← hkey]
          exact congrArg Room.stream_key (congrArg Prod.snd h).symm
        · exact h
      have hk0 : ¬(k0 = rid) := by
        intro hh
        subst hh
        exact hnd.1 (List.mem_map_of_mem Prod.fst hmem2)
      have huniq2 : ∀ p ∈ tl, p.2.stream_key = k → p.1 = rid := fun p hp =>
        huniq p (List.mem_cons_of_mem _ hp)
      obtain ⟨ih1, ih2⟩ := ih hnd.2 hmem2 huniq2
      constructor
      · simp [set_active_first, dictGet, h0, hk0, ih1]
      · intro rid2 hne
        by_cases h2 : k0 = rid2
        · subst h2
          simp [set_active_first, dictGet, h0]
        · simp [set_active_first, dictGet, h0, h2, ih2 rid2 hne]

theorem find_room_set_active (rooms : List (String × Room)) (k : String)
    (b : Bool) :
    find_room_by_key (set_active_first rooms (some k) b) (some k) =
      (find_room_by_key rooms (some k)).map
        (fun r => { r with is_active := b }) := by
  induction rooms with
  | nil => rfl
  | cons hd tl ih =>
    obtain ⟨rid, r⟩ := hd
    by_cases h : r.stream_key = k
    · simp [set_active_first, find_room_by_key, h]
    · simp [set_active_first, find_room_by_key, h, ih]

/-- orphanState is reachable: create a room with stream key "k", let its
stream start, then delete the room. The session entry survives the delete. -/
theorem orphanState_reachable :
    delete_room
        (stream_start_webhook
          (create_room qr0 st_empty "r" "k" "Morning Show" 0).1 (some "k") 5).1
        "r"
      = Except.ok (orphanState, "Room deleted successfully") := by
  rfl

theorem find_room_isSome_of_mem {rooms : List (String × Room)}
    {rid k : String} {room : Room} (hmem : (rid, room) ∈ rooms)
    (hkey : room.stream_key = k) :
    (find_room_by_key rooms (some k)).isSome := by
  induction rooms with
  | nil => cases hmem
  | cons hd tl ih =>
    obtain ⟨k0, r0⟩ := hd
    by_cases h : r0.stream_key = k
    · simp [find_room_by_key, h]
    · rcases List.mem_cons.mp hmem with hh | hh
      · exfalso
        apply h
        rw [← hkey]
        exact congrArg Room.stream_key (congrArg Prod.snd hh).symm
      · simp only [find_room_by_key]
        rw [if_neg (by simpa using h)]
        exact ih hh

/-! ### The claims -/

/-- C1, counterexample: in orphanState (live session for "k", no owning room)
the claim predicts that stream_end removes the session record and that the
status query then reports (false, null); in fact the handler leaves the
session table untouched and the status query still reports (true, 5). -/
theorem stream_end_orphan_session_kept_cex :
    (stream_end_webhook orphanState (some "k")).1.active_streams = [("k", 5)] ∧
    get_stream_status (stream_end_webhook orphanState (some "k")).1 "k"
      = { stream_key := "k", is_active := true, started_at := some 5 } ∧
    get_stream_status (stream_end_webhook orphanState (some "k")).1 "k"
      ≠ { stream_key := "k", is_active := false, started_at := none } := by
  refine ⟨rfl, rfl, ?_⟩
  decide

/-- C1, amended: stream_end removes the session record only when an owning
room is found; when the scan finds no room, the handler is a complete no-op
(the session record, if any, survives) and still answers ok. -/
theorem stream_end_no_room_is_noop (s : ServerState) (key : Option String)
    (h : find_room_by_key s.rooms_db key = none) :
    stream_end_webhook s key = (s, Except.ok "ok") := by
  simp [stream_end_webhook, h]

/-- Witness for the amended C1 theorem at orphanState. -/
theorem stream_end_no_room_is_noop_witness :
    find_room_by_key orphanState.rooms_db (some "k") = none ∧
    stream_end_webhook orphanState (some "k") = (orphanState, Except.ok "ok") :=
  ⟨rfl, stream_end_no_room_is_noop orphanState (some "k") rfl⟩

/-- C2, counterexample: with an empty registry, stream_start for key "k"
leaves the state untouched — no orphan session is recorded — and the status
query afterwards reports (false, null), not an existing activation state. -/
theorem stream_start_no_orphan_session_cex :
    stream_start_webhook st_empty (some "k") 7 = (st_empty, Except.ok "ok") ∧
    (stream_start_webhook st_empty (some "k") 7).1.active_streams = [] ∧
    get_stream_status (stream_start_webhook st_empty (some "k") 7).1 "k"
      = { stream_key := "k", is_active := false, started_at := none } := by
  exact ⟨rfl, rfl, rfl⟩

/-- C2, amended: when no owning room is found, stream_start never raises
(it answers ok) but records nothing at all: the state, including the session
table, is unchanged, so no orphan activation state exists for the key. -/
theorem stream_start_no_room_is_noop (s : ServerState) (key : Option String)
    (now : Nat) (h : find_room_by_key s.rooms_db key = none) :
    stream_start_webhook s key now = (s, Except.ok "ok") := by
  simp [stream_start_webhook, h]

/-- Witness for the amended C2 theorem at the empty state. -/
theorem stream_start_no_room_is_noop_witness :
    find_room_by_key st_empty.rooms_db (some "k") = none ∧
    stream_start_webhook st_empty (some "k") 7 = (st_empty, Except.ok "ok") :=
  ⟨rfl, stream_start_no_room_is_noop st_empty (some "k") 7 rfl⟩

/-- C3, counterexample: the claim quantifies over every stream key, but for a
key with no owning room (empty registry) stream_start records no session, so
the status query reports (false, null) instead of (true, timestamp). -/
theorem stream_start_unknown_key_not_active_cex :
    get_stream_status (stream_start_webhook st_empty (some "k") 3).1 "k"
      = { stream_key := "k", is_active := false, started_at := none } ∧
    get_stream_status (stream_start_webhook st_empty (some "k") 3).1 "k"
      ≠ { stream_key := "k", is_active := true, started_at := some 3 } := by
  refine ⟨rfl, ?_⟩
  decide

/-- C3, amended: for every stream key k that some room in the registry owns,
on_stream_start(k) followed by is_active(k) returns (true, timestamp of the
start), and on_stream_end(k) afterwards makes is_active(k) return
(false, null). (For keys with no owning room both handlers are no-ops.) -/
theorem stream_start_end_roundtrip (s : ServerState) (k : String) (now : Nat)
    (hWF : (s.active_streams.map Prod.fst).Nodup)
    (hfound : (find_room_by_key s.rooms_db (some k)).isSome) :
    get_stream_status (stream_start_webhook s (some k) now).1 k
      = { stream_key := k, is_active := true, started_at := some now } ∧
    get_stream_status
        (stream_end_webhook (stream_start_webhook s (some k) now).1 (some k)).1 k
      = { stream_key := k, is_active := false, started_at := none } := by
  obtain ⟨room, hr⟩ := Option.isSome_iff_exists.mp hfound
  have hrk : room.stream_key = k := find_room_key_eq hr
  have hs1 : (stream_start_webhook s (some k) now).1
      = { rooms_db := set_active_first s.rooms_db (some k) true,
          active_streams := dictInsert s.active_streams k now } := by
    simp [stream_start_webhook, hr, hrk]
  constructor
  · rw [hs1]
    simp [get_stream_status, dictGet_insert_self]
  · have hf1 : find_room_by_key (set_active_first s.rooms_db (some k) true)
        (some k) = some { room with is_active := true } := by
      rw [find_room_set_active, hr]
      rfl
    have hs2 : (stream_end_webhook (stream_start_webhook s (some k) now).1
        (some k)).1
        = { rooms_db := set_active_first
              (set_active_first s.rooms_db (some k) true) (some k) false,
            active_streams := dictErase (dictInsert s.active_streams k now) k } := by
      rw [hs1]
      simp [stream_end_webhook, hf1, hrk]
    rw [hs2]
    have hnd2 : ((dictInsert s.active_streams k now).map Prod.fst).Nodup :=
      nodup_keys_dictInsert k now hWF
    simp [get_stream_status, dictGet_erase_self hnd2]

/-- Witness for the amended C3 theorem on a one-room state. -/
theorem stream_start_end_roundtrip_witness :
    (st0.active_streams.map Prod.fst).Nodup ∧
    (find_room_by_key st0.rooms_db (some "k")).isSome ∧
    get_stream_status (stream_start_webhook st0 (some "k") 5).1 "k"
      = { stream_key := "k", is_active := true, started_at := some 5 } ∧
    get_stream_status
        (stream_end_webhook (stream_start_webhook st0 (some "k") 5).1 (some "k")).1 "k"
      = { stream_key := "k", is_active := false, started_at := none } :=
  ⟨by decide, by decide,
   (stream_start_end_roundtrip st0 "k" 5 (by decide) (by decide)).1,
   (stream_start_end_roundtrip st0 "k" 5 (by decide) (by decide)).2⟩

/-- C4, counterexample: create_room performs no collision check. Creating a
second room whose generated stream_key collides with that of roomA succeeds and
leaves two rooms with stream_key "k" (uniqueness violated, nothing rejected
or retried); creating a room whose generated room_id collides with that of roomA
silently overwrites the record of roomA. -/
theorem create_room_collision_cex :
    (create_room qr0 stA "r2" "k" "B" 1).1.rooms_db.map
        (fun p => p.2.stream_key) = ["k", "k"] ∧
    (create_room qr0 stA "r1" "k2" "B" 1).1.rooms_db
      = [("r1", { room_id := "r1", stream_key := "k2", title := "B",
                  created_at := 1, is_active := false, viewer_count := 0 })] := by
  exact ⟨rfl, rfl⟩

/-- C4, amended: create_room never rejects or retries: it always succeeds and
stores the new room unconditionally via rooms_db[room_id] = room. The
room_id keys of the registry stay pairwise distinct only because rooms_db is a map
keyed by room_id — a colliding room_id silently overwrites the existing
record — rooms with other room_ids are untouched, the session table is
untouched, and stream_key uniqueness is not enforced at all. -/
theorem create_room_unconditional_insert (qr : String → String)
    (s : ServerState) (rid key title : String) (now : Nat)
    (hnd : (s.rooms_db.map Prod.fst).Nodup) :
    ((create_room qr s rid key title now).1.rooms_db.map Prod.fst).Nodup ∧
    dictGet (create_room qr s rid key title now).1.rooms_db rid
      = some { room_id := rid, stream_key := key, title := title,
               created_at := now, is_active := false, viewer_count := 0 } ∧
    (∀ rid2, rid2 ≠ rid →
      dictGet (create_room qr s rid key title now).1.rooms_db rid2
        = dictGet s.rooms_db rid2) ∧
    (create_room qr s rid key title now).1.active_streams
      = s.active_streams := by
  refine ⟨?_, ?_, ?_, rfl⟩
  · exact nodup_keys_dictInsert _ _ hnd
  · exact dictGet_insert_self _ _ _
  · intro rid2 h2
    exact dictGet_insert_ne _ _ _ _ h2

/-- Witness for the amended C4 theorem: overwriting creation at the colliding
room_id "r1". -/
theorem create_room_unconditional_insert_witness :
    (stA.rooms_db.map Prod.fst).Nodup ∧
    dictGet (create_room qr0 stA "r1" "k2" "B" 1).1.rooms_db "r1"
      = some { room_id := "r1", stream_key := "k2", title := "B",
               created_at := 1, is_active := false, viewer_count := 0 } :=
  ⟨by decide,
   (create_room_unconditional_insert qr0 stA "r1" "k2" "B" 1 (by decide)).2.1⟩

/-- C5: for a room (rid, room) in the registry whose stream_key k no other
room shares, stream_start(k) flips the is_active flag of that room to true as observed
through get_room rid, and a subsequent stream_end(k) flips it back to false. -/
theorem stream_webhooks_flip_room_is_active (qr : String → String)
    (s : ServerState) (rid k : String) (room : Room) (now : Nat)
    (hnd : (s.rooms_db.map Prod.fst).Nodup)
    (hmem : (rid, room) ∈ s.rooms_db)
    (hkey : room.stream_key = k)
    (huniq : ∀ p ∈ s.rooms_db, p.2.stream_key = k → p.1 = rid) :
    (get_room qr (stream_start_webhook s (some k) now).1 rid).map
        RoomResponse.is_active = Except.ok true ∧
    (get_room qr
        (stream_end_webhook (stream_start_webhook s (some k) now).1 (some k)).1
        rid).map RoomResponse.is_active = Except.ok false := by
  obtain ⟨r2, hr2⟩ := Option.isSome_iff_exists.mp
    (find_room_isSome_of_mem hmem hkey)
  have hs1 : (stream_start_webhook s (some k) now).1
      = { rooms_db := set_active_first s.rooms_db (some k) true,
          active_streams := dictInsert s.active_streams r2.stream_key now } := by
    simp [stream_start_webhook, hr2]
  obtain ⟨hget1, _⟩ :=
    set_active_lookup true hnd hmem hkey huniq
  constructor
  · rw [hs1]
    simp [get_room, hget1, roomResponse, Except.map]
  · have hnd1 : ((set_active_first s.rooms_db (some k) true).map
        Prod.fst).Nodup := by
      rw [set_active_map_fst]
      exact hnd
    have hmem1 : (rid, { room with is_active := true })
        ∈ set_active_first s.rooms_db (some k) true := mem_of_dictGet hget1
    have hkey1 : ({ room with is_active := true } : Room).stream_key = k := hkey
    have huniq1 : ∀ p ∈ set_active_first s.rooms_db (some k) true,
        p.2.stream_key = k → p.1 = rid := by
      intro p hp hpk
      obtain ⟨r3, hr3mem, hr3key⟩ := mem_set_active hp
      exact huniq (p.1, r3) hr3mem (hr3key.trans hpk)
    obtain ⟨hget2, _⟩ := set_active_lookup false hnd1 hmem1 hkey1 huniq1
    have hf1 : find_room_by_key (set_active_first s.rooms_db (some k) true)
        (some k) = some { r2 with is_active := true } := by
      rw [find_room_set_active, hr2]
      rfl
    have hs2 : (stream_end_webhook (stream_start_webhook s (some k) now).1
        (some k)).1
        = { rooms_db := set_active_first
              (set_active_first s.rooms_db (some k) true) (some k) false,
            active_streams := dictErase
              (dictInsert s.active_streams r2.stream_key now)
              ({ r2 with is_active := true } : Room).stream_key } := by
      rw [hs1]
      simp [stream_end_webhook, hf1]
    rw [hs2]
    simp [get_room, hget2, roomResponse, Except.map]

/-- Witness for C5 on the one-room state st0. -/
theorem stream_webhooks_flip_room_is_active_witness :
    (st0.rooms_db.map Prod.fst).Nodup ∧
    ("r", room0) ∈ st0.rooms_db ∧
    room0.stream_key = "k" ∧
    (∀ p ∈ st0.rooms_db, p.2.stream_key = "k" → p.1 = "r") ∧
    (get_room qr0 (stream_start_webhook st0 (some "k") 5).1 "r").map
        RoomResponse.is_active = Except.ok true ∧
    (get_room qr0
        (stream_end_webhook (stream_start_webhook st0 (some "k") 5).1
          (some "k")).1 "r").map RoomResponse.is_active = Except.ok false :=
  ⟨by decide, by decide, by decide, by decide,
   (stream_webhooks_flip_room_is_active qr0 st0 "r" "k" room0 5
     (by decide) (by decide) (by decide) (by decide)).1,
   (stream_webhooks_flip_room_is_active qr0 st0 "r" "k" room0 5
     (by decide) (by decide) (by decide) (by decide)).2⟩

/-- C6: for every state and every form value — a known key, an unknown key,
or a missing form field (none) — both webhook handlers answer the success
response ok and never an error response. -/
theorem webhooks_always_ok (s : ServerState) (key : Option String)
    (now : Nat) :
    (stream_start_webhook s key now).2 = Except.ok "ok" ∧
    (stream_end_webhook s key).2 = Except.ok "ok" := by
  constructor
  · cases h : find_room_by_key s.rooms_db key <;>
      simp [stream_start_webhook, h]
  · cases h : find_room_by_key s.rooms_db key <;>
      simp [stream_end_webhook, h]

/-- C7: deleting a room has no side effects on the session table. With room
(rid, room) present and a live session for its stream_key k, delete_room
succeeds, leaves active_streams untouched (the status query still reports
active, with the same body as before), while get_room on rid now yields 404. -/
theorem delete_room_no_tracker_side_effects (qr : String → String)
    (s : ServerState) (rid k : String) (room : Room)
    (hnd : (s.rooms_db.map Prod.fst).Nodup)
    (hroom : dictGet s.rooms_db rid = some room)
    (_hkey : room.stream_key = k)
    (hactive : (dictGet s.active_streams k).isSome) :
    ∃ s2 msg, delete_room s rid = Except.ok (s2, msg) ∧
      s2.active_streams = s.active_streams ∧
      get_stream_status s2 k = get_stream_status s k ∧
      (get_stream_status s2 k).is_active = true ∧
      get_room qr s2 rid
        = Except.error { status_code := 404, detail := "Room not found" } := by
  refine ⟨{ s with rooms_db := dictErase s.rooms_db rid },
    "Room deleted successfully", ?_, rfl, rfl, ?_, ?_⟩
  · simp [delete_room, hroom]
  · simp [get_stream_status, hactive]
  · simp [get_room, dictGet_erase_self hnd]

/-- Witness for C7 at stLive (room0 present, its key "k" live). -/
theorem delete_room_no_tracker_side_effects_witness :
    (stLive.rooms_db.map Prod.fst).Nodup ∧
    dictGet stLive.rooms_db "r" = some room0 ∧
    room0.stream_key = "k" ∧
    (dictGet stLive.active_streams "k").isSome ∧
    (∃ s2 msg, delete_room stLive "r" = Except.ok (s2, msg) ∧
      s2.active_streams = stLive.active_streams ∧
      get_stream_status s2 "k" = get_stream_status stLive "k" ∧
      (get_stream_status s2 "k").is_active = true ∧
      get_room qr0 s2 "r"
        = Except.error { status_code := 404, detail := "Room not found" }) :=
  ⟨by decide, by decide, by decide, by decide,
   delete_room_no_tracker_side_effects qr0 stLive "r" "k" room0
     (by decide) (by decide) (by decide) (by decide)⟩

/-- C8: deleting a present room succeeds and afterwards both get_room and a
second delete_room on the same room_id fail with 404; on an absent room_id
both delete_room and get_room fail with 404. -/
theorem delete_then_get_not_found (qr : String → String) (s : ServerState)
    (rid : String) (hnd : (s.rooms_db.map Prod.fst).Nodup) :
    ((dictGet s.rooms_db rid).isSome →
      ∃ s2 msg, delete_room s rid = Except.ok (s2, msg) ∧
        get_room qr s2 rid
          = Except.error { status_code := 404, detail := "Room not found" } ∧
        delete_room s2 rid
          = Except.error { status_code := 404, detail := "Room not found" }) ∧
    (dictGet s.rooms_db rid = none →
      delete_room s rid
        = Except.error { status_code := 404, detail := "Room not found" } ∧
      get_room qr s rid
        = Except.error { status_code := 404, detail := "Room not found" }) := by
  constructor
  · intro hsome
    obtain ⟨room, hr⟩ := Option.isSome_iff_exists.mp hsome
    refine ⟨{ s with rooms_db := dictErase s.rooms_db rid },
      "Room deleted successfully", ?_, ?_, ?_⟩
    · simp [delete_room, hr]
    · simp [get_room, dictGet_erase_self hnd]
    · simp [delete_room, dictGet_erase_self hnd]
  · intro hnone
    constructor
    · simp [delete_room, hnone]
    · simp [get_room, hnone]

/-- Witness for C8 at st0. -/
theorem delete_then_get_not_found_witness :
    (st0.rooms_db.map Prod.fst).Nodup ∧
    (dictGet st0.rooms_db "r").isSome ∧
    (∃ s2 msg, delete_room st0 "r" = Except.ok (s2, msg) ∧
      get_room qr0 s2 "r"
        = Except.error { status_code := 404, detail := "Room not found" } ∧
      delete_room s2 "r"
        = Except.error { status_code := 404, detail := "Room not found" }) :=
  ⟨by decide, by decide,
   (delete_then_get_not_found qr0 st0 "r" (by decide)).1 (by decide)⟩

/-- C9: for any prior state and any title, looking up the room_id returned by
create_room succeeds and shows the same title, is_active = false and
viewer_count = 0. -/
theorem get_after_create_initial_state (qr : String → String)
    (s : ServerState) (rid key title : String) (now : Nat) :
    (get_room qr (create_room qr s rid key title now).1
        (create_room qr s rid key title now).2.room_id).map
      (fun r => (r.title, r.is_active, r.viewer_count))
      = Except.ok (title, false, 0) := by
  have h : (create_room qr s rid key title now).2.room_id = rid := rfl
  rw [h]
  have h2 : dictGet (create_room qr s rid key title now).1.rooms_db rid
      = some { room_id := rid, stream_key := key, title := title,
               created_at := now, is_active := false, viewer_count := 0 } :=
    dictGet_insert_self _ _ _
  simp [get_room, h2, roomResponse, Except.map]

theorem atMostFirstFlip_refl (rooms : List (String × Room))
    (key : Option String) (b : Bool) : AtMostFirstFlip rooms rooms key b :=
  ⟨rfl, fun _ => Or.inl rfl⟩

theorem atMostFirstFlip_set_active (rooms : List (String × Room))
    (key : Option String) (b : Bool) :
    AtMostFirstFlip rooms (set_active_first rooms key b) key b := by
  induction rooms with
  | nil => exact ⟨rfl, fun _ => Or.inl rfl⟩
  | cons hd tl ih =>
    obtain ⟨rid, r⟩ := hd
    by_cases h : some r.stream_key = key
    · have he : set_active_first ((rid, r) :: tl) key b
          = (rid, { r with is_active := b }) :: tl := by
        simp [set_active_first, h]
      rw [he]
      refine ⟨by simp, ?_⟩
      intro i
      match i with
      | 0 =>
        exact Or.inr ⟨(rid, r), rfl, h, rfl,
          fun j hj => absurd hj (Nat.not_lt_zero j)⟩
      | Nat.succ i => exact Or.inl rfl
    · obtain ⟨ihA, ihB⟩ := ih
      have he : set_active_first ((rid, r) :: tl) key b
          = (rid, r) :: set_active_first tl key b := by
        simp [set_active_first, h]
      rw [he]
      refine ⟨by simp [ihA], ?_⟩
      intro i
      match i with
      | 0 => exact Or.inl rfl
      | Nat.succ i =>
        rcases ihB i with hcase | ⟨p, hp, hc, hval, hprev⟩
        · exact Or.inl hcase
        · refine Or.inr ⟨p, hp, hc, hval, ?_⟩
          intro j hji q hq
          match j with
          | 0 =>
            have hqr : q = (rid, r) := by
              simpa using hq.symm
            rw [hqr]
            exact h
          | Nat.succ j =>
            exact hprev j (Nat.lt_of_succ_lt_succ hji) q hq

/-- C10: each webhook modifies at most one room — the first whose stream_key
equals the form value, and only its is_active field — leaving every room with
a different stream_key unchanged; and when no room matches (unknown key), the
whole state is left unchanged. -/
theorem webhooks_frame_effect (s : ServerState) (key : Option String)
    (now : Nat) :
    AtMostFirstFlip s.rooms_db (stream_start_webhook s key now).1.rooms_db
      key true ∧
    AtMostFirstFlip s.rooms_db (stream_end_webhook s key).1.rooms_db
      key false ∧
    (find_room_by_key s.rooms_db key = none →
      (stream_start_webhook s key now).1 = s ∧
      (stream_end_webhook s key).1 = s) := by
  refine ⟨?_, ?_, ?_⟩
  · cases h : find_room_by_key s.rooms_db key with
    | some room =>
      have he : (stream_start_webhook s key now).1.rooms_db
          = set_active_first s.rooms_db key true := by
        simp [stream_start_webhook, h]
      rw [he]
      exact atMostFirstFlip_set_active _ _ _
    | none =>
      have he : (stream_start_webhook s key now).1.rooms_db = s.rooms_db := by
        simp [stream_start_webhook, h]
      rw [he]
      exact atMostFirstFlip_refl _ _ _
  · cases h : find_room_by_key s.rooms_db key with
    | some room =>
      have he : (stream_end_webhook s key).1.rooms_db
          = set_active_first s.rooms_db key false := by
        simp [stream_end_webhook, h]
      rw [he]
      exact atMostFirstFlip_set_active _ _ _
    | none =>
      have he : (stream_end_webhook s key).1.rooms_db = s.rooms_db := by
        simp [stream_end_webhook, h]
      rw [he]
      exact atMostFirstFlip_refl _ _ _
  · intro h
    constructor
    · simp [stream_start_webhook, h]
    · simp [stream_end_webhook, h]

/-- Witness for C10 on a concrete unknown-key notification: the state holding
room0 is completely unchanged by both webhooks for key "x". -/
theorem webhooks_frame_effect_witness :
    find_room_by_key st0.rooms_db (some "x") = none ∧
    (stream_start_webhook st0 (some "x") 9).1 = st0 ∧
    (stream_end_webhook st0 (some "x")).1 = st0 :=
  ⟨by decide,
   ((webhooks_frame_effect st0 (some "x") 9).2.2 (by decide)).1,
   ((webhooks_frame_effect st0 (some "x") 9).2.2 (by decide)).2⟩

end Broadcasting
